import Mathlib

/-!
Shallow embedding of `src/main.py`, a minimal e-commerce backend: HTTP
endpoints for listing categories and products, plus demo-grade signup/login,
backed optionally by a document database with static fallback data.

The embedding models:
* `hash_password` — single-round SHA-256 hex digest of the UTF-8 encoded
  password (FIPS 180-4, as `hashlib.sha256(pw.encode()).hexdigest()`);
* the document store (`category`, `product`, `user` collections) as lists of
  records with optional fields mirroring Python `dict.get` semantics;
* the four business endpoints `get_categories`, `list_products`, `signup`,
  `login`, each parameterised by whether the database module import succeeds
  (`dbOk`), threading the store state explicitly.
-/

namespace Backend

/-! ### SHA-256 (model of `hashlib.sha256`), on byte lists, 32-bit words as `Nat` mod 2^32 -/

/-- Truncate to a 32-bit word. -/
def w32 (n : Nat) : Nat := n % 2 ^ 32

/-- Right rotation of a 32-bit word by `n` bits. -/
def rotr (n x : Nat) : Nat := w32 ((x >>> n) ||| (x <<< (32 - n)))

/-- Bitwise complement within 32 bits. -/
def cpl (x : Nat) : Nat := x ^^^ 0xFFFFFFFF

/-- SHA-256 choice function. -/
def ch (x y z : Nat) : Nat := (x &&& y) ^^^ (cpl x &&& z)

/-- SHA-256 majority function. -/
def maj (x y z : Nat) : Nat := (x &&& y) ^^^ (x &&& z) ^^^ (y &&& z)

/-- Big sigma 0. -/
def bsig0 (x : Nat) : Nat := rotr 2 x ^^^ rotr 13 x ^^^ rotr 22 x

/-- Big sigma 1. -/
def bsig1 (x : Nat) : Nat := rotr 6 x ^^^ rotr 11 x ^^^ rotr 25 x

/-- Small sigma 0. -/
def ssig0 (x : Nat) : Nat := rotr 7 x ^^^ rotr 18 x ^^^ (x >>> 3)

/-- Small sigma 1. -/
def ssig1 (x : Nat) : Nat := rotr 17 x ^^^ rotr 19 x ^^^ (x >>> 10)

/-- The 64 SHA-256 round constants. -/
def K256 : List Nat :=
  [1116352408, 1899447441, 3049323471, 3921009573, 961987163, 1508970993,
   2453635748, 2870763221, 3624381080, 310598401, 607225278, 1426881987,
   1925078388, 2162078206, 2614888103, 3248222580, 3835390401, 4022224774,
   264347078, 604807628, 770255983, 1249150122, 1555081692, 1996064986,
   2554220882, 2821834349, 2952996808, 3210313671, 3336571891, 3584528711,
   113926993, 338241895, 666307205, 773529912, 1294757372, 1396182291,
   1695183700, 1986661051, 2177026350, 2456956037, 2730485921, 2820302411,
   3259730800, 3345764771, 3516065817, 3600352804, 4094571909, 275423344,
   430227734, 506948616, 659060556, 883997877, 958139571, 1322822218,
   1537002063, 1747873779, 1955562222, 2024104815, 2227730452, 2361852424,
   2428436474, 2756734187, 3204031479, 3329325298]

/-- The initial SHA-256 hash state. -/
def H256 : List Nat :=
  [1779033703, 3144134277, 1013904242, 2773480762,
   1359893119, 2600822924, 528734635, 1541459225]

/-- Big-endian 8-byte encoding of a natural number (used for the length field). -/
def be64 (n : Nat) : List Nat :=
  [w32 (n >>> 56) % 256, (n >>> 48) % 256, (n >>> 40) % 256, (n >>> 32) % 256,
   (n >>> 24) % 256, (n >>> 16) % 256, (n >>> 8) % 256, n % 256]

/-- SHA-256 message padding: append `0x80`, zero bytes to 56 mod 64, then the
bit length as a big-endian 64-bit integer. -/
def sha256pad (msg : List Nat) : List Nat :=
  let l := msg.length
  let padlen := (55 + 64 - l % 64) % 64 + 1
  msg ++ (0x80 :: List.replicate (padlen - 1) 0) ++ be64 (8 * l)

/-- Split a byte list into successive 64-byte chunks; the fuel argument (an
upper bound on the number of chunks) makes the recursion structural. -/
def chunks64core : Nat → List Nat → List (List Nat)
  | 0, _ => []
  | _, [] => []
  | fuel + 1, x :: xs => ((x :: xs).take 64) :: chunks64core fuel ((x :: xs).drop 64)

/-- Split a byte list into successive 64-byte chunks. -/
def chunks64 (l : List Nat) : List (List Nat) := chunks64core l.length l

/-- Combine four bytes into a big-endian 32-bit word. -/
def word4 (a b c d : Nat) : Nat := ((a <<< 24) ||| (b <<< 16) ||| (c <<< 8) ||| d)

/-- Parse a chunk of bytes into big-endian 32-bit words. -/
def toWords : List Nat → List Nat
  | a :: b :: c :: d :: rest => word4 a b c d :: toWords rest
  | _ => []

/-- Next word of the SHA-256 message schedule, from the words so far. -/
def nextW (w : List Nat) : Nat :=
  let n := w.length
  w32 (ssig1 (w.getD (n - 2) 0) + w.getD (n - 7) 0 + ssig0 (w.getD (n - 15) 0) + w.getD (n - 16) 0)

/-- Extend the message schedule by `k` further words. -/
def buildW (w : List Nat) : Nat → List Nat
  | 0 => w
  | k + 1 => buildW (w ++ [nextW w]) k

/-- One SHA-256 compression round: state is the 8 working variables. -/
def round256 (st : List Nat) (wk : Nat × Nat) : List Nat :=
  match st with
  | [a, b, c, d, e, f, g, h] =>
    let t1 := w32 (h + bsig1 e + ch e f g + wk.2 + wk.1)
    let t2 := w32 (bsig0 a + maj a b c)
    [w32 (t1 + t2), a, b, c, w32 (d + t1), e, f, g]
  | other => other

/-- Process one 64-byte chunk, updating the 8-word hash state. -/
def sha256chunk (h : List Nat) (chunk : List Nat) : List Nat :=
  let w := buildW (toWords chunk) 48
  let v := (w.zip K256).foldl round256 h
  List.zipWith (fun x y => w32 (x + y)) h v

/-- SHA-256 digest of a byte list, as the list of 32 digest bytes. -/
def sha256bytes (msg : List Nat) : List Nat :=
  let hfin := (chunks64 (sha256pad msg)).foldl sha256chunk H256
  (hfin.map (fun w => [(w >>> 24) &&& 255, (w >>> 16) &&& 255, (w >>> 8) &&& 255, w &&& 255])).flatten

/-- Lowercase hexadecimal digit for a nibble. -/
def hexDigit (n : Nat) : Char := if n < 10 then Char.ofNat (48 + n) else Char.ofNat (87 + n)

/-- Lowercase hexadecimal rendering of a byte list, two digits per byte
(`hexdigest` on the digest bytes). -/
def bytesToHex (bs : List Nat) : String :=
  String.mk ((bs.map (fun b => [hexDigit ((b >>> 4) &&& 15), hexDigit (b &&& 15)])).flatten)

/-- UTF-8 encoding of a single character (Python `str.encode()` semantics). -/
def utf8Char (c : Char) : List Nat :=
  let n := c.toNat
  if n < 0x80 then [n]
  else if n < 0x800 then [0xC0 ||| (n >>> 6), 0x80 ||| (n &&& 0x3F)]
  else if n < 0x10000 then
    [0xE0 ||| (n >>> 12), 0x80 ||| ((n >>> 6) &&& 0x3F), 0x80 ||| (n &&& 0x3F)]
  else
    [0xF0 ||| (n >>> 18), 0x80 ||| ((n >>> 12) &&& 0x3F), 0x80 ||| ((n >>> 6) &&& 0x3F),
     0x80 ||| (n &&& 0x3F)]

/-- UTF-8 byte encoding of a string (`pw.encode()`). -/
def strBytes (s : String) : List Nat := (s.data.map utf8Char).flatten

/-- `hash_password(pw)`: `sha256(pw.encode()).hexdigest()` (src/main.py:184). -/
def hash_password (pw : String) : String := bytesToHex (sha256bytes (strBytes pw))

/-! ### Data model: stored documents and the store state

Stored documents mirror Mongo documents read through Python `dict.get`: every
field the code reads with `.get(key)` is `Option`-typed (absent key ↦ `none`),
and `_id` is modelled as a `Nat` (Mongo guarantees its presence; object-id
generation is modelled by a fresh counter in the store). -/

/-- A document of the `category` collection. -/
structure CategoryDoc where
  name : Option String
  slug : Option String
  description : Option String
  icon : Option String
  created_at : Option Nat
  updated_at : Option Nat
deriving DecidableEq, Repr

/-- A document of the `product` collection. -/
structure ProductDoc where
  _id : Nat
  title : Option String
  description : Option String
  price : Option Rat
  category : Option String
  in_stock : Option Bool
  image_url : Option String
deriving DecidableEq, Repr

/-- A document of the `user` collection. -/
structure UserDoc where
  _id : Nat
  name : Option String
  email : Option String
  password_hash : Option String
  is_active : Option Bool
  created_at : Option Nat
  updated_at : Option Nat
deriving DecidableEq, Repr

/-- The document store: the three persisted collections (insertion order) and
the counter supplying fresh `_id` values for inserts. -/
structure Store where
  category : List CategoryDoc
  product : List ProductDoc
  user : List UserDoc
  nextId : Nat
deriving DecidableEq, Repr

/-- `str(_id)`: string conversion of the storage-native identifier. -/
def strId (n : Nat) : String := toString n

/-- `db["user"].find_one({"email": e})`: first user document whose `email`
field equals `e`. -/
def findUser (users : List UserDoc) (e : String) : Option UserDoc :=
  users.find? (fun u => u.email = some e)

/-- Python truthiness of the optional `category` query parameter
(`if category:`): `None` and the empty string are falsy. -/
def categoryTruthy : Option String → Bool
  | none => false
  | some s => s ≠ ""

/-! ### Response shapes -/

/-- The public category shape `{name, slug, description, icon}`
(`CategoryOut`), fields as produced by `dict.get`. -/
structure CategoryOut where
  name : Option String
  slug : Option String
  description : Option String
  icon : Option String
deriving DecidableEq, Repr

/-- The public product shape
`{id, title, description, price, category, in_stock, image_url}`
(`ProductOut`). -/
structure ProductOut where
  id : String
  title : Option String
  description : Option String
  price : Option Rat
  category : Option String
  in_stock : Bool
  image_url : Option String
deriving DecidableEq, Repr

/-- Signup endpoint response: demo-mode acknowledgment, success with the new
user id, or an `HTTPException` with status and detail. -/
inductive SignupResp where
  | demo (name email : String)
  | ok (user_id : String)
  | err (status : Nat) (detail : String)
deriving DecidableEq, Repr

/-- Login endpoint response: demo-mode acknowledgment, success with the user
id and stored name, or an `HTTPException` with status and detail. -/
inductive LoginResp where
  | demo (email : String)
  | ok (user_id : String) (name : Option String)
  | err (status : Nat) (detail : String)
deriving DecidableEq, Repr

/-- Whether a signup response is a success acknowledgment (`"ok": True`). -/
def SignupResp.isOk : SignupResp → Bool
  | .demo _ _ => true
  | .ok _ => true
  | .err _ _ => false

/-- Whether a login response is a success acknowledgment (`"ok": True`). -/
def LoginResp.isOk : LoginResp → Bool
  | .demo _ => true
  | .ok _ _ => true
  | .err _ _ => false

/-! ### `get_categories` (src/main.py:98-137) -/

/-- The static fallback list returned when the database module import fails
(src/main.py:105-112); no `icon` key in the source dicts, coerced to
`CategoryOut` with `icon = None` by the response model. -/
def staticCategories : List CategoryOut :=
  [⟨some "Engine", some "engine", some "Performance engine parts", none⟩,
   ⟨some "Braking", some "braking", some "Pads, rotors, kits", none⟩,
   ⟨some "Suspension", some "suspension", some "Coilovers, arms, bushings", none⟩,
   ⟨some "Electronics", some "electronics", some "Sensors, ECUs, harnesses", none⟩,
   ⟨some "LED Lighting", some "lighting", some "Headlights, strips, kits", none⟩,
   ⟨some "Bodywork", some "bodywork", some "Aero, trims, panels", none⟩]

/-- The six seed documents inserted when the `category` collection is empty
(src/main.py:117-126), each stamped with the current time. -/
def seedDocs (now : Nat) : List CategoryDoc :=
  [⟨some "Engine", some "engine", some "Performance engine parts", some "Cog", some now, some now⟩,
   ⟨some "Braking", some "braking", some "Pads, rotors, kits", some "Disc3", some now, some now⟩,
   ⟨some "Suspension", some "suspension", some "Coilovers, arms, bushings", some "Wrench",
     some now, some now⟩,
   ⟨some "Electronics", some "electronics", some "Sensors, ECUs, harnesses", some "Cpu",
     some now, some now⟩,
   ⟨some "LED Lighting", some "lighting", some "Headlights, strips, kits", some "Lightbulb",
     some now, some now⟩,
   ⟨some "Bodywork", some "bodywork", some "Aero, trims, panels", some "Zap", some now, some now⟩]

/-- Projection of a stored category document to the public shape
(src/main.py:129-137). -/
def projectCategory (c : CategoryDoc) : CategoryOut :=
  ⟨c.name, c.slug, c.description, c.icon⟩

/-- `get_categories()`: static fallback when the database import fails;
otherwise seed the `category` collection if empty, then return all documents
projected to the public shape (src/main.py:98-137). -/
def get_categories (dbOk : Bool) (st : Store) (now : Nat) : List CategoryOut × Store :=
  if !dbOk then (staticCategories, st)
  else
    let existing := st.category
    if existing = [] then
      let st' := { st with category := st.category ++ seedDocs now }
      (st'.category.map projectCategory, st')
    else
      (existing.map projectCategory, st)

/-! ### `list_products` (src/main.py:139-179) -/

/-- A demo product dict from the static fallback (src/main.py:145-148): its
`_id` is already a string, and all fields are present. -/
structure DemoProduct where
  _id : String
  title : String
  description : String
  price : Rat
  category : String
  in_stock : Bool
  image_url : Option String
deriving DecidableEq, Repr

/-- The two hardcoded demo products (src/main.py:145-148). -/
def demoProducts : List DemoProduct :=
  [⟨"1", "Carbon Intake Kit", "High-flow carbon fiber intake", 29999 / 100, "engine", true, none⟩,
   ⟨"2", "Drilled Brake Rotors", "Performance rotor pair", 1895 / 10, "braking", true, none⟩]

/-- Projection of a demo product to the public shape (src/main.py:151-162):
`id` is taken verbatim, `in_stock` defaults to `True` when absent. -/
def projectDemo (d : DemoProduct) : ProductOut :=
  ⟨d._id, some d.title, some d.description, some d.price, some d.category, d.in_stock, d.image_url⟩

/-- Projection of a stored product document to the public shape
(src/main.py:168-179): `id` is `str(_id)` and `in_stock` is
`d.get("in_stock", True)`. -/
def projectProduct (d : ProductDoc) : ProductOut :=
  ⟨strId d._id, d.title, d.description, d.price, d.category, d.in_stock.getD true, d.image_url⟩

/-- Python list slice `xs[:limit]` for an `int` limit: nonnegative limits
take a prefix; a negative limit drops `|limit|` elements from the end. -/
def pySlice (limit : Int) (xs : List α) : List α :=
  if 0 ≤ limit then xs.take limit.toNat
  else xs.take (xs.length - min xs.length limit.natAbs)

/-- Mongo cursor `limit(n)` semantics (PyMongo): `0` means no limit, and a
nonzero limit caps the result at `|n|` documents. -/
def mongoLimit (limit : Int) (xs : List α) : List α :=
  if limit = 0 then xs else xs.take limit.natAbs

/-- Whether a stored product matches the query filter `q` built by
`list_products` (src/main.py:164-166): an equality filter on `category` when
the parameter is truthy, else the empty filter. -/
def productMatches (category : Option String) (d : ProductDoc) : Bool :=
  if categoryTruthy category then d.category = category else true

/-- `list_products(category, limit)`: demo fallback filtered by truthy
`category` and sliced to `limit`; otherwise a filtered, limited query over the
`product` collection, projected to the public shape (src/main.py:139-179).
Reads only; the store is not modified. -/
def list_products (dbOk : Bool) (st : Store) (category : Option String) (limit : Int) :
    List ProductOut :=
  if !dbOk then
    let demo :=
      if categoryTruthy category then
        demoProducts.filter (fun d => some d.category = category)
      else demoProducts
    (pySlice limit demo).map projectDemo
  else
    (mongoLimit limit (st.product.filter (productMatches category))).map projectProduct

/-! ### `signup` and `login` (src/main.py:187-223) -/

/-- `signup(payload)`: demo acknowledgment when the database import fails;
400 when a user with the email already exists; otherwise insert a new user
document with the hashed password and return its id (src/main.py:187-208). -/
def signup (dbOk : Bool) (st : Store) (name email password : String) (now : Nat) :
    SignupResp × Store :=
  if !dbOk then (SignupResp.demo name email, st)
  else
    match findUser st.user email with
    | some _ => (SignupResp.err 400 "Email already registered", st)
    | none =>
      let doc : UserDoc :=
        ⟨st.nextId, some name, some email, some (hash_password password), some true,
         some now, some now⟩
      (SignupResp.ok (strId st.nextId), { st with user := st.user ++ [doc], nextId := st.nextId + 1 })

/-- `login(payload)`: demo acknowledgment when the database import fails; 401
when no user matches the email or the stored hash differs from the hash of
the supplied password; otherwise success with the stored id and name
(src/main.py:210-223). Reads only; the store is returned unchanged. -/
def login (dbOk : Bool) (st : Store) (email password : String) : LoginResp × Store :=
  if !dbOk then (LoginResp.demo email, st)
  else
    match findUser st.user email with
    | none => (LoginResp.err 401 "Invalid credentials", st)
    | some u =>
      if u.password_hash ≠ some (hash_password password) then
        (LoginResp.err 401 "Invalid credentials", st)
      else
        (LoginResp.ok (strId u._id) u.name, st)

/-- The number of records matching the `list_products` query in the current
mode: the demo list filtered by a truthy category, or the `product`
collection filtered by the query document. -/
def matchingCount (dbOk : Bool) (st : Store) (category : Option String) : Nat :=
  if !dbOk then
    (if categoryTruthy category then demoProducts.filter (fun d => some d.category = category)
     else demoProducts).length
  else (st.product.filter (productMatches category)).length

/-- The SHA-256 digest of a string's password hash, reduced into the finite
type `Fin 32 → Fin 256` of 32-byte vectors (the digest's codomain at type
level; the reduction mod 256 is the identity on actual digest bytes). -/
def digestFin (s : String) : Fin 32 → Fin 256 := fun i =>
  ⟨(sha256bytes (strBytes s)).getD i 0 % 256, Nat.mod_lt _ (by omega)⟩

/-! ### Helper lemmas about the SHA-256 model -/

theorem round256_length (st : List Nat) (wk : Nat × Nat) : (round256 st wk).length = st.length := by
  unfold round256
  split <;> simp

theorem foldl_round256_length (l : List (Nat × Nat)) (h : List Nat) :
    (l.foldl round256 h).length = h.length := by
  induction l generalizing h with
  | nil => rfl
  | cons x xs ih => rw [List.foldl_cons, ih, round256_length]

theorem sha256chunk_length (h c : List Nat) : (sha256chunk h c).length = h.length := by
  simp [sha256chunk, foldl_round256_length]

theorem foldl_sha256chunk_length (cs : List (List Nat)) (h : List Nat) :
    (cs.foldl sha256chunk h).length = h.length := by
  induction cs generalizing h with
  | nil => rfl
  | cons c cs ih => rw [List.foldl_cons, ih, sha256chunk_length]

theorem flatten_map4_length (f1 f2 f3 f4 : Nat → Nat) (l : List Nat) :
    ((l.map (fun w => [f1 w, f2 w, f3 w, f4 w])).flatten).length = 4 * l.length := by
  induction l with
  | nil => rfl
  | cons x xs ih => simp [ih]; omega

/-- The SHA-256 digest always consists of exactly 32 bytes. -/
theorem sha256bytes_length (msg : List Nat) : (sha256bytes msg).length = 32 := by
  unfold sha256bytes
  rw [flatten_map4_length, foldl_sha256chunk_length]
  rfl

/-- Every byte of a SHA-256 digest is below 256. -/
theorem sha256bytes_lt (msg : List Nat) : ∀ x ∈ sha256bytes msg, x < 256 := by
  intro x hx
  simp only [sha256bytes, List.mem_flatten, List.mem_map] at hx
  obtain ⟨l, ⟨w, -, rfl⟩, hxl⟩ := hx
  simp only [List.mem_cons, List.not_mem_nil, or_false] at hxl
  rcases hxl with rfl | rfl | rfl | rfl <;>
    exact Nat.lt_succ_of_le Nat.and_le_right

theorem flatten_map2_length (f1 f2 : Nat → Char) (l : List Nat) :
    ((l.map (fun b => [f1 b, f2 b])).flatten).length = 2 * l.length := by
  induction l with
  | nil => rfl
  | cons x xs ih => simp [ih]; omega

/-- A hex rendering has two characters per byte. -/
theorem bytesToHex_length (bs : List Nat) : (bytesToHex bs).length = 2 * bs.length := by
  show ((bs.map _).flatten).length = 2 * bs.length
  rw [flatten_map2_length]

/-- `hash_password` always produces a 64-character digest string. -/
theorem hash_password_length (p : String) : (hash_password p).length = 64 := by
  unfold hash_password
  rw [bytesToHex_length, sha256bytes_length]

/-- Sanity check of the SHA-256 model against the FIPS 180-4 test vector for
the message `"abc"`. -/
theorem hash_password_test_vector :
    hash_password "abc" = "ba7816bf8f01cfea414140de5dae2223b00361a396177a9cb410ff61f20015ad" := by
  decide

/-- If two strings have the same `digestFin`, their password hashes agree. -/
theorem hash_eq_of_digestFin_eq {p q : String} (h : digestFin p = digestFin q) :
    hash_password p = hash_password q := by
  unfold hash_password
  congr 1
  apply List.ext_getElem
  · rw [sha256bytes_length, sha256bytes_length]
  · intro i h1 h2
    rw [sha256bytes_length] at h1
    have hc := congrArg Fin.val (congrFun h ⟨i, h1⟩)
    simp only [digestFin] at hc
    rw [List.getD_eq_getElem _ _ (by rwa [sha256bytes_length]),
      List.getD_eq_getElem _ _ h2] at hc
    have b1 := sha256bytes_lt (strBytes p) _ (List.getElem_mem (by rwa [sha256bytes_length]))
    have b2 := sha256bytes_lt (strBytes q) _ (List.getElem_mem h2)
    rwa [Nat.mod_eq_of_lt b1, Nat.mod_eq_of_lt b2] at hc

/-! ### Claim theorems -/

/-- C1. With the store unreachable (database import fails), `get_categories`
returns exactly the fixed list of six category records — names Engine,
Braking, Suspension, Electronics, LED Lighting, Bodywork — for every store
state and at every time, and leaves the state untouched; hence the result is
independent of how many times the endpoint has been called before. -/
theorem get_categories_unreachable_constant (st : Store) (now : Nat) :
    get_categories false st now = (staticCategories, st) ∧
    (get_categories false st now).1.map (fun c => c.name) =
      [some "Engine", some "Braking", some "Suspension", some "Electronics",
       some "LED Lighting", some "Bodywork"] ∧
    (get_categories false st now).1.length = 6 := by
  refine ⟨rfl, rfl, rfl⟩

/-- C6 counterexample. The injectivity half of the claim is false:
`hash_password` cannot send distinct passwords to distinct digests, because
the digest space (32 bytes) is finite while the space of password strings is
infinite. -/
theorem hash_password_not_injective :
    ¬ ∀ p q : String, p ≠ q → hash_password p ≠ hash_password q := by
  intro hinj
  obtain ⟨p, q, hpq, heq⟩ := Finite.exists_ne_map_eq_of_infinite digestFin
  exact hinj p q hpq (hash_eq_of_digestFin_eq heq)

/-- C6 amended. `hash_password` is deterministic — two evaluations on the
same password yield the same digest, always a 64-character hex string — but
distinct passwords are not guaranteed distinct digests. -/
theorem hash_password_deterministic (p : String) :
    hash_password p = hash_password p ∧ (hash_password p).length = 64 := by
  refine ⟨rfl, ?_⟩
  unfold hash_password
  rw [bytesToHex_length, sha256bytes_length]

/-- C7. With the store unreachable, `signup` and `login` succeed (demo-mode
ok acknowledgment) for every input and leave the whole store state unchanged:
nothing is written to or read from any collection. -/
theorem demo_mode_auth_no_persistence (st : Store) (n e p e' p' : String) (now : Nat) :
    signup false st n e p now = (SignupResp.demo n e, st) ∧
    (signup false st n e p now).1.isOk = true ∧
    login false st e' p' = (LoginResp.demo e', st) ∧
    (login false st e' p').1.isOk = true := by
  refine ⟨rfl, rfl, rfl, rfl⟩

/-- C2. With the store reachable and the `category` collection empty, the
first call to `get_categories` inserts exactly the six seed records — each
carrying `created_at`/`updated_at` stamped with the call time — and returns
them projected to `{name, slug, description, icon}`; a second call on the
resulting store returns the same list and leaves the store unchanged. -/
theorem get_categories_seeds_once (st : Store) (now now' : Nat) (h : st.category = []) :
    (get_categories true st now).1 = (seedDocs now).map projectCategory ∧
    (get_categories true st now).2 = { st with category := seedDocs now } ∧
    (seedDocs now).length = 6 ∧
    (∀ d ∈ seedDocs now, d.created_at = some now ∧ d.updated_at = some now) ∧
    get_categories true (get_categories true st now).2 now' =
      ((get_categories true st now).1, (get_categories true st now).2) := by
  have hst : get_categories true st now =
      ((seedDocs now).map projectCategory, { st with category := seedDocs now }) := by
    simp [get_categories, h]
  refine ⟨by rw [hst], by rw [hst], rfl, ?_, ?_⟩
  · intro d hd
    simp only [seedDocs, List.mem_cons, List.not_mem_nil, or_false] at hd
    rcases hd with rfl | rfl | rfl | rfl | rfl | rfl <;> exact ⟨rfl, rfl⟩
  · rw [hst]
    simp [get_categories, seedDocs]

theorem get_categories_seeds_once_witness :
    ((⟨[], [], [], 0⟩ : Store).category = []) ∧
    ((get_categories true ⟨[], [], [], 0⟩ 0).1 = (seedDocs 0).map projectCategory ∧
     (get_categories true ⟨[], [], [], 0⟩ 0).2 =
       { (⟨[], [], [], 0⟩ : Store) with category := seedDocs 0 } ∧
     (seedDocs 0).length = 6 ∧
     (∀ d ∈ seedDocs 0, d.created_at = some 0 ∧ d.updated_at = some 0) ∧
     get_categories true (get_categories true ⟨[], [], [], 0⟩ 0).2 1 =
       ((get_categories true ⟨[], [], [], 0⟩ 0).1, (get_categories true ⟨[], [], [], 0⟩ 0).2)) :=
  ⟨rfl, get_categories_seeds_once ⟨[], [], [], 0⟩ 0 1 rfl⟩

/-- C10. With the store reachable, the `category` collection is non-empty
after any call to `get_categories`; and a call that starts on a non-empty
collection modifies nothing (it returns the stored records projected, with
the store unchanged). -/
theorem get_categories_nonempty_invariant (st : Store) (now : Nat) :
    (get_categories true st now).2.category ≠ [] ∧
    (st.category ≠ [] → get_categories true st now = (st.category.map projectCategory, st)) := by
  constructor
  · by_cases h : st.category = []
    · simp [get_categories, h, seedDocs]
    · simp [get_categories, h]
  · intro h
    simp [get_categories, h]

theorem get_categories_nonempty_invariant_witness :
    ((⟨[⟨some "A", none, none, none, none, none⟩], [], [], 0⟩ : Store).category ≠ []) ∧
    ((get_categories true ⟨[⟨some "A", none, none, none, none, none⟩], [], [], 0⟩ 0).2.category
       ≠ [] ∧
     get_categories true ⟨[⟨some "A", none, none, none, none, none⟩], [], [], 0⟩ 0 =
       ((⟨[⟨some "A", none, none, none, none, none⟩], [], [], 0⟩ : Store).category.map
          projectCategory,
        ⟨[⟨some "A", none, none, none, none, none⟩], [], [], 0⟩)) :=
  ⟨by decide,
   (get_categories_nonempty_invariant ⟨[⟨some "A", none, none, none, none, none⟩], [], [], 0⟩ 0).1,
   (get_categories_nonempty_invariant ⟨[⟨some "A", none, none, none, none, none⟩], [], [], 0⟩ 0).2
     (by decide)⟩

/-! ### Helper lemmas about slicing and limits -/

theorem pySlice_length_le (limit : Int) (xs : List α) : (pySlice limit xs).length ≤ xs.length := by
  unfold pySlice
  split <;> simp [List.length_take]

theorem mongoLimit_length_le (limit : Int) (xs : List α) :
    (mongoLimit limit xs).length ≤ xs.length := by
  unfold mongoLimit
  split <;> simp [List.length_take]

theorem mem_pySlice (limit : Int) (xs : List α) (a : α) (h : a ∈ pySlice limit xs) : a ∈ xs := by
  unfold pySlice at h
  split at h <;> exact List.mem_of_mem_take h

theorem mem_mongoLimit (limit : Int) (xs : List α) (a : α) (h : a ∈ mongoLimit limit xs) :
    a ∈ xs := by
  unfold mongoLimit at h
  split at h
  · exact h
  · exact List.mem_of_mem_take h

theorem pySlice_length_le_toNat (limit : Int) (hl : 0 ≤ limit) (xs : List α) :
    (pySlice limit xs).length ≤ limit.toNat := by
  unfold pySlice
  rw [if_pos hl]
  simp [List.length_take]

theorem mongoLimit_length_le_natAbs (limit : Int) (hl : limit ≠ 0) (xs : List α) :
    (mongoLimit limit xs).length ≤ limit.natAbs := by
  unfold mongoLimit
  rw [if_neg hl]
  simp [List.length_take]

/-- C3 counterexample. The claim fails as stated on two concrete inputs:
with the store reachable, one matching stored product and `limit = 0`, the
Mongo cursor is unlimited and one record is returned, exceeding the limit;
and in demo mode the category argument `""` applies no filter (Python
truthiness), so records whose category differs from `""` are returned. -/
theorem list_products_limit_zero_and_empty_category_cex :
    ((list_products true ⟨[], [⟨5, some "T", none, none, some "engine", none, none⟩], [], 9⟩
        none 0).length = 1 ∧
     ¬ ((list_products true ⟨[], [⟨5, some "T", none, none, some "engine", none, none⟩], [], 9⟩
        none 0).length ≤ 0)) ∧
    ((list_products false ⟨[], [], [], 0⟩ (some "") 12).map (fun p => p.category) =
      [some "engine", some "braking"] ∧
     some "" ∉ (list_products false ⟨[], [], [], 0⟩ (some "") 12).map (fun p => p.category)) := by
  refine ⟨⟨rfl, by decide⟩, ⟨rfl, by decide⟩⟩

/-- C3 amended. For every store state and nonempty category argument `c`,
`list_products` with `category = c` returns only records whose category
equals `c` (demo and DB modes alike); for every limit ≥ 1 the number of
returned records is at most `limit`; and for every limit it never exceeds
the number of matching records. -/
theorem list_products_filter_and_limit (dbOk : Bool) (st : Store) (c : String) (limit : Int)
    (hc : c ≠ "") (hl : 1 ≤ limit) :
    (∀ p ∈ list_products dbOk st (some c) limit, p.category = some c) ∧
    ((list_products dbOk st (some c) limit).length : Int) ≤ limit ∧
    (∀ l : Int, (list_products dbOk st (some c) l).length ≤ matchingCount dbOk st (some c)) := by
  have htr : categoryTruthy (some c) = true := by simp [categoryTruthy, hc]
  refine ⟨?_, ?_, ?_⟩
  · intro p hp
    cases dbOk with
    | false =>
      simp only [list_products, Bool.not_false, if_pos, htr, if_true, List.mem_map] at hp
      obtain ⟨d, hd, rfl⟩ := hp
      have hd2 := List.mem_filter.mp (mem_pySlice _ _ _ hd)
      have : some d.category = some c := of_decide_eq_true hd2.2
      simpa [projectDemo] using this
    | true =>
      simp only [list_products, Bool.not_true, if_neg, List.mem_map,
        Bool.false_eq_true, not_false_eq_true] at hp
      obtain ⟨d, hd, rfl⟩ := hp
      have hd2 := List.mem_filter.mp (mem_mongoLimit _ _ _ hd)
      have hm := hd2.2
      rw [productMatches, htr, if_pos rfl] at hm
      have : d.category = some c := of_decide_eq_true hm
      simpa [projectProduct] using this
  · have h0 : (0 : Int) ≤ limit := by omega
    cases dbOk with
    | false =>
      have := pySlice_length_le_toNat limit h0
        (demoProducts.filter (fun d => some d.category = some c))
      simp only [list_products, Bool.not_false, if_pos, htr, if_true, List.length_map]
      omega
    | true =>
      have := mongoLimit_length_le_natAbs limit (by omega)
        (st.product.filter (productMatches (some c)))
      simp only [list_products, Bool.not_true, Bool.false_eq_true, not_false_eq_true,
        if_neg, List.length_map]
      omega
  · intro l
    cases dbOk with
    | false =>
      have := pySlice_length_le l (demoProducts.filter (fun d => some d.category = some c))
      simp only [list_products, matchingCount, Bool.not_false, if_pos, htr, if_true,
        List.length_map]
      omega
    | true =>
      have := mongoLimit_length_le l (st.product.filter (productMatches (some c)))
      simp only [list_products, matchingCount, Bool.not_true, Bool.false_eq_true,
        not_false_eq_true, if_neg, List.length_map]
      omega

theorem list_products_filter_and_limit_witness :
    ("engine" ≠ "") ∧ ((1 : Int) ≤ 2) ∧
    ((∀ p ∈ list_products false ⟨[], [], [], 0⟩ (some "engine") 2, p.category = some "engine") ∧
     ((list_products false ⟨[], [], [], 0⟩ (some "engine") 2).length : Int) ≤ 2 ∧
     (∀ l : Int, (list_products false ⟨[], [], [], 0⟩ (some "engine") l).length ≤
       matchingCount false ⟨[], [], [], 0⟩ (some "engine"))) :=
  ⟨by decide, by decide,
   list_products_filter_and_limit false ⟨[], [], [], 0⟩ "engine" 2 (by decide) (by decide)⟩


theorem find?_append_of_none (p : α → Bool) (l l2 : List α) (h : l.find? p = none) :
    (l ++ l2).find? p = l2.find? p := by
  induction l with
  | nil => rfl
  | cons x xs ih =>
    cases hpx : p x with
    | true =>
      rw [List.find?_cons_of_pos _ hpx] at h
      exact Option.noConfusion h
    | false =>
      rw [List.find?_cons_of_neg _ (by simp [hpx])] at h
      rw [List.cons_append, List.find?_cons_of_neg _ (by simp [hpx])]
      exact ih h

theorem findUser_append_same (l : List UserDoc) (u : UserDoc) (e : String)
    (h : findUser l e = none) (hu : u.email = some e) :
    findUser (l ++ [u]) e = some u := by
  unfold findUser at h ⊢
  rw [find?_append_of_none _ _ _ h]
  simp [hu]

theorem signup_duplicate_email (st : Store) (n1 e p1 n2 p2 : String) (t1 t2 : Nat)
    (h : findUser st.user e = none) :
    (signup true st n1 e p1 t1).1 = SignupResp.ok (strId st.nextId) ∧
    (signup true st n1 e p1 t1).1.isOk = true ∧
    (signup true st n1 e p1 t1).2.user =
      st.user ++ [⟨st.nextId, some n1, some e, some (hash_password p1), some true,
        some t1, some t1⟩] ∧
    (signup true (signup true st n1 e p1 t1).2 n2 e p2 t2).1 =
      SignupResp.err 400 "Email already registered" ∧
    (signup true (signup true st n1 e p1 t1).2 n2 e p2 t2).2 = (signup true st n1 e p1 t1).2 := by
  have h1 : signup true st n1 e p1 t1 =
      (SignupResp.ok (strId st.nextId),
       { st with user := st.user ++ [⟨st.nextId, some n1, some e, some (hash_password p1),
           some true, some t1, some t1⟩], nextId := st.nextId + 1 }) := by
    simp [signup, h]
  have h2 : findUser (st.user ++ [⟨st.nextId, some n1, some e, some (hash_password p1),
      some true, some t1, some t1⟩]) e = some ⟨st.nextId, some n1, some e,
      some (hash_password p1), some true, some t1, some t1⟩ :=
    findUser_append_same _ _ _ h rfl
  refine ⟨by rw [h1], by rw [h1]; rfl, by rw [h1], ?_, ?_⟩
  · rw [h1]
    simp [signup, h2]
  · rw [h1]
    simp [signup, h2]

theorem login_credentials (st : Store) (e p : String) :
    (findUser st.user e = none →
      (login true st e p).1 = LoginResp.err 401 "Invalid credentials") ∧
    (∀ u, findUser st.user e = some u → u.password_hash ≠ some (hash_password p) →
      (login true st e p).1 = LoginResp.err 401 "Invalid credentials") ∧
    (∀ u, findUser st.user e = some u → u.password_hash = some (hash_password p) →
      login true st e p = (LoginResp.ok (strId u._id) u.name, st)) := by
  refine ⟨?_, ?_, ?_⟩
  · intro h
    simp [login, h]
  · intro u h hne
    simp [login, h, hne]
  · intro u h heq
    simp [login, h, heq]

theorem login_uniform_failure (st st2 : Store) (e p e2 p2 : String) (u : UserDoc)
    (h1 : findUser st.user e = none)
    (h2 : findUser st2.user e2 = some u)
    (h3 : u.password_hash ≠ some (hash_password p2)) :
    (login true st e p).1 = LoginResp.err 401 "Invalid credentials" ∧
    (login true st2 e2 p2).1 = LoginResp.err 401 "Invalid credentials" ∧
    (login true st e p).1 = (login true st2 e2 p2).1 := by
  have a1 : (login true st e p).1 = LoginResp.err 401 "Invalid credentials" := by
    simp [login, h1]
  have a2 : (login true st2 e2 p2).1 = LoginResp.err 401 "Invalid credentials" := by
    simp [login, h2, h3]
  exact ⟨a1, a2, a1.trans a2.symm⟩

theorem list_products_db_projection (st : Store) (c : Option String) (limit : Int) :
    ∀ o ∈ list_products true st c limit, ∃ d ∈ st.product, o = projectProduct d ∧
      o.id = strId d._id ∧ o.title = d.title ∧ o.description = d.description ∧
      o.price = d.price ∧ o.category = d.category ∧ o.in_stock = d.in_stock.getD true ∧
      o.image_url = d.image_url ∧ (d.in_stock = none → o.in_stock = true) := by
  intro o ho
  simp only [list_products, Bool.not_true, Bool.false_eq_true, not_false_eq_true, if_neg,
    List.mem_map] at ho
  obtain ⟨d, hd, rfl⟩ := ho
  refine ⟨d, List.mem_of_mem_filter (mem_mongoLimit _ _ _ hd),
    rfl, rfl, rfl, rfl, rfl, rfl, rfl, rfl, ?_⟩
  intro hnone
  simp [projectProduct, hnone]

theorem signup_duplicate_email_witness :
    (findUser ([] : List UserDoc) "a@b.c" = none) ∧
    ((signup true ⟨[], [], [], 0⟩ "Al" "a@b.c" "pw" 1).1 = SignupResp.ok (strId 0) ∧
     (signup true ⟨[], [], [], 0⟩ "Al" "a@b.c" "pw" 1).1.isOk = true ∧
     (signup true ⟨[], [], [], 0⟩ "Al" "a@b.c" "pw" 1).2.user =
       [] ++ [⟨0, some "Al", some "a@b.c", some (hash_password "pw"), some true,
         some 1, some 1⟩] ∧
     (signup true (signup true ⟨[], [], [], 0⟩ "Al" "a@b.c" "pw" 1).2 "Bob" "a@b.c" "pw2" 2).1 =
       SignupResp.err 400 "Email already registered" ∧
     (signup true (signup true ⟨[], [], [], 0⟩ "Al" "a@b.c" "pw" 1).2 "Bob" "a@b.c" "pw2" 2).2 =
       (signup true ⟨[], [], [], 0⟩ "Al" "a@b.c" "pw" 1).2) :=
  ⟨rfl, signup_duplicate_email ⟨[], [], [], 0⟩ "Al" "a@b.c" "pw" "Bob" "pw2" 1 2 rfl⟩

theorem login_credentials_witness :
    ((findUser ([] : List UserDoc) "a@b" = none) ∧
     (login true ⟨[], [], [], 0⟩ "a@b" "pw").1 = LoginResp.err 401 "Invalid credentials") ∧
    ((findUser [⟨3, some "Bo", some "c@d", some "", some true, some 0, some 0⟩] "c@d" =
        some ⟨3, some "Bo", some "c@d", some "", some true, some 0, some 0⟩) ∧
     (⟨3, some "Bo", some "c@d", some "", some true, some 0, some 0⟩ : UserDoc).password_hash ≠
       some (hash_password "x") ∧
     (login true ⟨[], [], [⟨3, some "Bo", some "c@d", some "", some true, some 0, some 0⟩], 4⟩
        "c@d" "x").1 = LoginResp.err 401 "Invalid credentials") ∧
    ((findUser [⟨7, some "Al", some "a@b", some (hash_password "pw"), some true, some 0, some 0⟩]
        "a@b" =
        some ⟨7, some "Al", some "a@b", some (hash_password "pw"), some true, some 0, some 0⟩) ∧
     (⟨7, some "Al", some "a@b", some (hash_password "pw"), some true, some 0,
        some 0⟩ : UserDoc).password_hash = some (hash_password "pw") ∧
     login true
        ⟨[], [], [⟨7, some "Al", some "a@b", some (hash_password "pw"), some true, some 0,
          some 0⟩], 8⟩ "a@b" "pw" =
       (LoginResp.ok (strId 7) (some "Al"),
        ⟨[], [], [⟨7, some "Al", some "a@b", some (hash_password "pw"), some true, some 0,
          some 0⟩], 8⟩)) := by
  have hne : (⟨3, some "Bo", some "c@d", some "", some true, some 0,
      some 0⟩ : UserDoc).password_hash ≠ some (hash_password "x") := by
    intro hcon
    have h64 := hash_password_length "x"
    rw [← Option.some.inj hcon] at h64
    exact absurd h64 (by decide)
  refine ⟨⟨rfl, (login_credentials ⟨[], [], [], 0⟩ "a@b" "pw").1 rfl⟩,
    ⟨rfl, hne,
     (login_credentials
        ⟨[], [], [⟨3, some "Bo", some "c@d", some "", some true, some 0, some 0⟩], 4⟩
        "c@d" "x").2.1
       ⟨3, some "Bo", some "c@d", some "", some true, some 0, some 0⟩ rfl hne⟩,
    ⟨rfl, rfl,
     (login_credentials
        ⟨[], [], [⟨7, some "Al", some "a@b", some (hash_password "pw"), some true, some 0,
          some 0⟩], 8⟩ "a@b" "pw").2.2
       ⟨7, some "Al", some "a@b", some (hash_password "pw"), some true, some 0, some 0⟩
       rfl rfl⟩⟩

theorem login_uniform_failure_witness :
    (findUser ([] : List UserDoc) "x@y" = none) ∧
    (findUser [⟨4, some "C", some "x@y", some "", some true, some 0, some 0⟩] "x@y" =
      some ⟨4, some "C", some "x@y", some "", some true, some 0, some 0⟩) ∧
    ((⟨4, some "C", some "x@y", some "", some true, some 0, some 0⟩ : UserDoc).password_hash ≠
      some (hash_password "q")) ∧
    ((login true ⟨[], [], [], 1⟩ "x@y" "p").1 = LoginResp.err 401 "Invalid credentials" ∧
     (login true ⟨[], [], [⟨4, some "C", some "x@y", some "", some true, some 0, some 0⟩], 5⟩
        "x@y" "q").1 = LoginResp.err 401 "Invalid credentials" ∧
     (login true ⟨[], [], [], 1⟩ "x@y" "p").1 =
       (login true ⟨[], [], [⟨4, some "C", some "x@y", some "", some true, some 0, some 0⟩], 5⟩
          "x@y" "q").1) := by
  have hne : (⟨4, some "C", some "x@y", some "", some true, some 0,
      some 0⟩ : UserDoc).password_hash ≠ some (hash_password "q") := by
    intro hcon
    have h64 := hash_password_length "q"
    rw [← Option.some.inj hcon] at h64
    exact absurd h64 (by decide)
  exact ⟨rfl, rfl, hne, login_uniform_failure ⟨[], [], [], 1⟩
    ⟨[], [], [⟨4, some "C", some "x@y", some "", some true, some 0, some 0⟩], 5⟩
    "x@y" "p" "x@y" "q" ⟨4, some "C", some "x@y", some "", some true, some 0, some 0⟩
    rfl rfl hne⟩

theorem list_products_db_projection_witness :
    ((⟨"5", some "T", none, none, some "engine", true, none⟩ : ProductOut) ∈
      list_products true ⟨[], [⟨5, some "T", none, none, some "engine", none, none⟩], [], 9⟩
        none 12) ∧
    (∃ d ∈ (⟨[], [⟨5, some "T", none, none, some "engine", none, none⟩], [], 9⟩ : Store).product,
      (⟨"5", some "T", none, none, some "engine", true, none⟩ : ProductOut) = projectProduct d ∧
      (⟨"5", some "T", none, none, some "engine", true, none⟩ : ProductOut).id = strId d._id ∧
      (⟨"5", some "T", none, none, some "engine", true, none⟩ : ProductOut).title = d.title ∧
      (⟨"5", some "T", none, none, some "engine", true,
        none⟩ : ProductOut).description = d.description ∧
      (⟨"5", some "T", none, none, some "engine", true, none⟩ : ProductOut).price = d.price ∧
      (⟨"5", some "T", none, none, some "engine", true, none⟩ : ProductOut).category = d.category ∧
      (⟨"5", some "T", none, none, some "engine", true,
        none⟩ : ProductOut).in_stock = d.in_stock.getD true ∧
      (⟨"5", some "T", none, none, some "engine", true, none⟩ : ProductOut).image_url = d.image_url ∧
      (d.in_stock = none →
        (⟨"5", some "T", none, none, some "engine", true, none⟩ : ProductOut).in_stock = true)) :=
  ⟨by decide,
   list_products_db_projection ⟨[], [⟨5, some "T", none, none, some "engine", none, none⟩], [], 9⟩
     none 12 ⟨"5", some "T", none, none, some "engine", true, none⟩ (by decide)⟩
end Backend
